import Mathlib

/-!
Verification of the image-poet backend (FastAPI service that stores uploaded
images and asks an AI vision model for a poem about each one).

This file shallowly embeds the Python code of `src/backend/app` into Lean:

* Python `str` is modelled as Lean `String` (a structure holding a
  `List Char`, i.e. a sequence of unicode code points, exactly like a
  Python `str`); the Python string operations used by the code
  (`str.strip`, `str.split`, `str.join`, `str.startswith`, `str.lower`,
  `pathlib.Path(...).suffix`) are re-implemented below over `List Char`.
* Fallible Python code (functions that may raise) is modelled with
  `Except`; `None`-able values with `Option`.
* The database session is modelled as a list of records; SQLAlchemy's
  `query(...).filter(id == i).first()` becomes `List.find?`.
* External effects (disk writes, S3 calls, DB commits, the OpenAI call,
  `asyncio.sleep`) are modelled by oracle parameters and by an explicit
  event trace, so that the control flow around them (validation order,
  cleanup, the retry loop) is captured faithfully.
-/

namespace ImagePoet

/-! ## Python string primitives (over code-point lists) -/

/-- Drop leading whitespace characters, as Python `str.lstrip()` does. -/
def stripLeft : List Char → List Char
  | [] => []
  | c :: cs => if c.isWhitespace then stripLeft cs else c :: cs

/-- Python `str.strip()`: drop whitespace from both ends. -/
def pyStrip (s : String) : String :=
  ⟨stripLeft (stripLeft s.data.reverse).reverse⟩

/-- Split a code-point list on a separator character.  Like Python
`str.split(sep)`, the result always has at least one element and splitting
the empty string yields `[[]]`. -/
def splitChar (sep : Char) : List Char → List (List Char)
  | [] => [[]]
  | c :: cs =>
    if c = sep then [] :: splitChar sep cs
    else
      match splitChar sep cs with
      | [] => [[c]]
      | t :: ts => (c :: t) :: ts

/-- Python `response.split('\n')`. -/
def pySplitLines (s : String) : List String :=
  (splitChar '\n' s.data).map (fun l => ⟨l⟩)

/-- Python `'\n'.join(lines)`. -/
def joinLines : List String → String
  | [] => ""
  | [s] => s
  | s :: rest => s ++ "\n" ++ joinLines rest

/-- The part of a code-point list after the first `':'`; models
`line.split(':', 1)[1]` for a line known to contain a colon (the parser
only applies it to lines starting with a title marker, which ends in
`':'`). -/
def afterFirstColon : List Char → List Char
  | [] => []
  | c :: cs => if c = ':' then cs else afterFirstColon cs

/-- Python `str.lower()` (ASCII case folding suffices for the extension
whitelist, which is pure ASCII). -/
def pyLower (s : String) : String := ⟨s.data.map Char.toLower⟩

/-! ## `PoetryService._parse_poetry_response`
(src/backend/app/services/poetry_service.py, lines 268-322) -/

/-- True if the (already stripped) line starts with a recognized title
marker, as in `line.startswith('제목:') or line.startswith('Title:')`. -/
def isTitleMarker (s : String) : Bool :=
  List.isPrefixOf "제목:".data s.data || List.isPrefixOf "Title:".data s.data

/-- The `for i, line in enumerate(lines)` loop of
`_parse_poetry_response`: find the first line whose stripped form starts
with a title marker; return the stripped text after its first colon
together with the lines strictly after it. -/
def findTitleLine : List String → Option (String × List String)
  | [] => none
  | l :: rest =>
    let s := pyStrip l
    if isTitleMarker s then some (pyStrip ⟨afterFirstColon s.data⟩, rest)
    else findTitleLine rest

/-- The `fallback_titles` dict of `_parse_poetry_response` together with
its `.get(language, fallback_titles["korean"])` lookup. -/
def fallback_titles (language : String) : String :=
  if language == "korean" then "이미지에서 영감을 받은 시"
  else if language == "english" then "A Poem Inspired by an Image"
  else if language == "japanese" then "画像からインスピレーションを得た詩"
  else "이미지에서 영감을 받은 시"

/-- The `if not title and lines:` branch of `_parse_poetry_response`:
title := first line stripped; content := the remaining lines joined and
stripped, or the first line stripped again when there is only one line. -/
def first_line_fallback : List String → String × String
  | [] => ("", "")
  | l :: rest =>
    (pyStrip l, if rest.isEmpty then pyStrip l else pyStrip (joinLines rest))

/-- The two final fallbacks of `_parse_poetry_response`: an empty title
becomes the language-specific fallback title, an empty content becomes the
whole stripped response. -/
def finalize (raw language : String) (p : String × String) : String × String :=
  (if p.1 == "" then fallback_titles language else p.1,
   if p.2 == "" then raw else p.2)

/-- `PoetryService._parse_poetry_response(response, language)`.  The
Python body is straight-line: strip and split the response, scan for a
marker line, fall back to the first line, fall back to a language-specific
title, and finally promote an empty body to the whole stripped response.
(The surrounding `try/except` can only fire on non-string input and is
unreachable for actual `str` arguments, so it is not modelled.) -/
def parse_poetry_response (response language : String) : String × String :=
  let lines := pySplitLines (pyStrip response)
  let p1 : String × String :=
    match findTitleLine lines with
    | some (t, rest) => (t, pyStrip (joinLines rest))
    | none => ("", "")
  let p2 := if p1.1 == "" && !lines.isEmpty then first_line_fallback lines else p1
  finalize (pyStrip response) language p2

/-! ## Basic lemmas about the string primitives -/

theorem stripLeft_head (l : List Char) :
    stripLeft l = [] ∨ ∃ c cs, stripLeft l = c :: cs ∧ c.isWhitespace = false := by
  induction l with
  | nil => exact Or.inl rfl
  | cons c cs ih =>
    by_cases h : c.isWhitespace
    · simpa [stripLeft, h] using ih
    · exact Or.inr ⟨c, cs, by simp [stripLeft, h], by simpa using h⟩

theorem stripLeft_append_singleton (l : List Char) (c : Char)
    (h : c.isWhitespace = false) : ∃ ys, stripLeft (l ++ [c]) = ys ++ [c] := by
  induction l with
  | nil => exact ⟨[], by simp [stripLeft, h]⟩
  | cons x xs ih =>
    by_cases hx : x.isWhitespace
    · simpa [stripLeft, hx] using ih
    · exact ⟨x :: xs, by simp [stripLeft, hx]⟩

theorem pyStrip_ne_empty_head (s : String) (h : pyStrip s ≠ "") :
    ∃ c cs, (pyStrip s).data = c :: cs ∧ c.isWhitespace = false := by
  rcases stripLeft_head (stripLeft s.data.reverse).reverse with h0 | ⟨c, cs, hc, hw⟩
  · exact absurd (show pyStrip s = "" from congrArg String.mk h0) h
  · exact ⟨c, cs, hc, hw⟩

theorem pyStrip_cons_ne (c : Char) (t : List Char) (h : c.isWhitespace = false) :
    pyStrip ⟨c :: t⟩ ≠ "" := by
  intro hcon
  have hdata : stripLeft (stripLeft (c :: t).reverse).reverse = [] :=
    congrArg String.data hcon
  obtain ⟨ys, hys⟩ := stripLeft_append_singleton t.reverse c h
  rw [show (c :: t).reverse = t.reverse ++ [c] by simp, hys] at hdata
  simp [stripLeft, h] at hdata

theorem splitChar_ne_nil (sep : Char) (l : List Char) : splitChar sep l ≠ [] := by
  cases l with
  | nil => simp [splitChar]
  | cons c cs =>
    by_cases h : c = sep
    · simp [splitChar, h]
    · simp only [splitChar, if_neg h]
      cases splitChar sep cs <;> simp

theorem splitChar_cons_of_ne (sep c : Char) (cs : List Char) (h : c ≠ sep) :
    ∃ t ts, splitChar sep (c :: cs) = (c :: t) :: ts := by
  simp only [splitChar, if_neg h]
  cases hs : splitChar sep cs with
  | nil => exact ⟨[], [], rfl⟩
  | cons t ts => exact ⟨t, ts, rfl⟩

theorem pySplitLines_ne_nil (s : String) : pySplitLines s ≠ [] := by
  simp [pySplitLines, splitChar_ne_nil]

/-- Splitting a string whose first character is not whitespace yields a
first line that does not strip to the empty string. -/
theorem pySplitLines_head_strip_ne (s : String) (c : Char) (cs : List Char)
    (hdata : s.data = c :: cs) (hw : c.isWhitespace = false) :
    ∃ l rest, pySplitLines s = l :: rest ∧ pyStrip l ≠ "" := by
  have hc : c ≠ '\n' := by
    intro h; rw [h] at hw; simp [Char.isWhitespace] at hw
  obtain ⟨t, ts, hts⟩ := splitChar_cons_of_ne '\n' c cs hc
  refine ⟨⟨c :: t⟩, ts.map (fun l => ⟨l⟩), ?_, pyStrip_cons_ne c t hw⟩
  simp [pySplitLines, hdata, hts]

/-- If the marker scan finds a line, the stripped response is non-empty. -/
theorem findTitleLine_some_ne (r : String) (p : String × List String)
    (hm : findTitleLine (pySplitLines (pyStrip r)) = some p) : pyStrip r ≠ "" := by
  intro h
  rw [h] at hm
  simp [pySplitLines, splitChar, findTitleLine, pyStrip, stripLeft,
    isTitleMarker, List.isPrefixOf] at hm

theorem fallback_titles_ne (language : String) : fallback_titles language ≠ "" := by
  unfold fallback_titles
  split <;> try split <;> try split
  all_goals decide

/-! ## Claim C1: the parser follows the spec's fallback order -/

/-- The first-line fallback (steps 2-4 of the spec's parsing rules),
written from the claim's words: for a response that is non-empty after
trimming, title = first line trimmed and body = the remaining lines joined
and trimmed (or that same line when only one line exists); for an empty
response the title is the language-specific fallback string; an empty body
becomes the full trimmed response. -/
def spec_first_line_rule (raw language : String) (lines : List String) :
    String × String :=
  if raw == "" then (fallback_titles language, raw)
  else
    match lines with
    | [] => (fallback_titles language, raw)
    | l :: rest =>
      let body := if rest.isEmpty then pyStrip l else pyStrip (joinLines rest)
      (pyStrip l, if body == "" then raw else body)

/-- Response parsing as described by claim C1, amended: the marker branch
determines the result only when the text after the marker on the first
marker line is non-empty; otherwise (empty marker text, or no marker line)
the first-line fallback applies. -/
def spec_parse_poetry_response (response language : String) : String × String :=
  let raw := pyStrip response
  let lines := pySplitLines raw
  match findTitleLine lines with
  | some (t, rest) =>
    if t == "" then spec_first_line_rule raw language lines
    else (t, let b := pyStrip (joinLines rest); if b == "" then raw else b)
  | none => spec_first_line_rule raw language lines

/-- Claim C1 (amended): the parser realizes exactly the spec's fallback
order, except that a marker line with empty trailing text does not fix the
title: the first-line fallback then overrides it.  With that amendment the
code's parse function and the claim's parse function agree on every
response and language. -/
theorem parse_poetry_follows_spec_order (response language : String) :
    parse_poetry_response response language =
      spec_parse_poetry_response response language := by
  cases hm : findTitleLine (pySplitLines (pyStrip response)) with
  | some p =>
    obtain ⟨t, rest⟩ := p
    have hraw : pyStrip response ≠ "" := findTitleLine_some_ne response (t, rest) hm
    obtain ⟨c, cs, hdata, hw⟩ := pyStrip_ne_empty_head response hraw
    obtain ⟨l, rest', hsplit, hstrip⟩ :=
      pySplitLines_head_strip_ne (pyStrip response) c cs hdata hw
    rw [hsplit] at hm
    by_cases ht : t = ""
    · subst ht
      simp [parse_poetry_response, finalize, spec_parse_poetry_response,
        hsplit, hm, spec_first_line_rule, first_line_fallback, hraw, hstrip]
    · simp [parse_poetry_response, finalize, spec_parse_poetry_response,
        hsplit, hm, ht]
  | none =>
    by_cases hraw : pyStrip response = ""
    · rw [hraw] at hm
      have e1 : pySplitLines "" = [""] := rfl
      have e2 : first_line_fallback [""] = ("", "") := rfl
      rw [e1] at hm
      simp [parse_poetry_response, finalize, spec_parse_poetry_response,
        hraw, hm, e1, e2, spec_first_line_rule]
    · obtain ⟨c, cs, hdata, hw⟩ := pyStrip_ne_empty_head response hraw
      obtain ⟨l, rest', hsplit, hstrip⟩ :=
        pySplitLines_head_strip_ne (pyStrip response) c cs hdata hw
      rw [hsplit] at hm
      simp [parse_poetry_response, finalize, spec_parse_poetry_response,
        hsplit, hm, spec_first_line_rule, first_line_fallback, hraw, hstrip]

/-- Claim C1 counterexample: the response `"A\nTitle:"` contains a line
starting with the recognized marker `Title:` whose trailing text is empty,
so the claim as stated demands title = `""`; the code instead returns the
first-line fallback `("A", "Title:")`. -/
theorem parse_marker_line_counterexample :
    findTitleLine (pySplitLines (pyStrip "A\nTitle:")) = some ("", []) ∧
    parse_poetry_response "A\nTitle:" "english" = ("A", "Title:") ∧
    ("A" : String) ≠ "" := by
  refine ⟨by decide, by decide, by decide⟩

/-! ## Claim C9: marker line with empty trailing text -/

/-- Claim C9 (amended): when the first recognized marker line has no
trailing text after the marker, the marker branch leaves the title empty
and the first-line fallback overrides both fields: the returned title is
the response's *first* line trimmed (which is the marker line itself only
when the marker sits on the first line), and the body is the remaining
lines joined and trimmed (with the usual empty-body promotion),
overwriting the marker branch's body. -/
theorem empty_marker_text_first_line_override (response language : String)
    (rest : List String)
    (hm : findTitleLine (pySplitLines (pyStrip response)) = some ("", rest)) :
    (parse_poetry_response response language).1 =
        pyStrip ((pySplitLines (pyStrip response)).headD "") ∧
    parse_poetry_response response language =
      ((first_line_fallback (pySplitLines (pyStrip response))).1,
        if (first_line_fallback (pySplitLines (pyStrip response))).2 == ""
        then pyStrip response
        else (first_line_fallback (pySplitLines (pyStrip response))).2) := by
  have hraw : pyStrip response ≠ "" := findTitleLine_some_ne response ("", rest) hm
  obtain ⟨c, cs, hdata, hw⟩ := pyStrip_ne_empty_head response hraw
  obtain ⟨l, rest', hsplit, hstrip⟩ :=
    pySplitLines_head_strip_ne (pyStrip response) c cs hdata hw
  rw [hsplit] at hm
  refine ⟨?_, ?_⟩ <;>
    simp [parse_poetry_response, finalize, hsplit, hm, first_line_fallback, hstrip]

theorem empty_marker_text_first_line_override_witness :
    (parse_poetry_response "B\nTitle:\nC" "english").1 =
        pyStrip ((pySplitLines (pyStrip "B\nTitle:\nC")).headD "") ∧
    parse_poetry_response "B\nTitle:\nC" "english" =
      ((first_line_fallback (pySplitLines (pyStrip "B\nTitle:\nC"))).1,
        if (first_line_fallback (pySplitLines (pyStrip "B\nTitle:\nC"))).2 == ""
        then pyStrip "B\nTitle:\nC"
        else (first_line_fallback (pySplitLines (pyStrip "B\nTitle:\nC"))).2) :=
  empty_marker_text_first_line_override "B\nTitle:\nC" "english" ["C"] (by decide)

/-- Claim C9 counterexample: in `"B\nTitle:\nC"` the marker line is the
*second* line, so the returned title `"B"` is the first line, not "the
marker line itself" as the claim words it. -/
theorem marker_not_first_line_counterexample :
    findTitleLine (pySplitLines (pyStrip "B\nTitle:\nC")) = some ("", ["C"]) ∧
    (pySplitLines (pyStrip "B\nTitle:\nC")).getD 1 "" = "Title:" ∧
    parse_poetry_response "B\nTitle:\nC" "english" = ("B", "Title:\nC") ∧
    ("B" : String) ≠ "Title:" := by
  refine ⟨by decide, by decide, by decide, by decide⟩

/-! ## The ImageRecord data model and the record store
(src/backend/app/models/image.py, src/backend/app/services/image_service.py) -/

/-- The `images` table row (`app.models.image.Image`).  Timestamps are
modelled as abstract clock values (`Nat`). -/
structure ImageRecord where
  id : Nat
  filename : String
  original_filename : String
  file_path : String
  file_size : Nat
  mime_type : String
  width : Option Nat
  height : Option Nat
  poetry_title : Option String
  poetry_content : Option String
  poetry_generated : Bool
  upload_ip : Option String
  user_agent : Option String
  created_at : Nat
  updated_at : Nat
deriving DecidableEq

/-- `ImageService.get_image_by_id`:
`db.query(Image).filter(Image.id == image_id).first()`. -/
def get_image_by_id (db : List ImageRecord) (image_id : Nat) : Option ImageRecord :=
  db.find? (fun r => r.id == image_id)

/-- Mutating the single ORM object returned by `first()` and committing:
replace the first record with the given id. -/
def replaceFirst (db : List ImageRecord) (image_id : Nat)
    (f : ImageRecord → ImageRecord) : List ImageRecord :=
  match db with
  | [] => []
  | r :: rest =>
    if r.id == image_id then f r :: rest else r :: replaceFirst rest image_id f

/-- `ImageService.update_image_poetry`: look the record up; if absent
return `None`; otherwise set title, content, the `poetry_generated` flag
and `updated_at`, commit, and return the refreshed record.  Returns the
new database contents together with the function's return value. -/
def update_image_poetry (db : List ImageRecord) (image_id : Nat)
    (poetry_title poetry_content : String) (now : Nat) :
    List ImageRecord × Option ImageRecord :=
  match get_image_by_id db image_id with
  | none => (db, none)
  | some _ =>
    let db' := replaceFirst db image_id (fun r =>
      { r with poetry_title := some poetry_title,
               poetry_content := some poetry_content,
               poetry_generated := true,
               updated_at := now })
    (db', get_image_by_id db' image_id)

theorem get_replaceFirst (db : List ImageRecord) (image_id : Nat)
    (f : ImageRecord → ImageRecord) (hf : ∀ r, (f r).id = r.id) :
    get_image_by_id (replaceFirst db image_id f) image_id =
      (get_image_by_id db image_id).map f := by
  induction db with
  | nil => rfl
  | cons r rest ih =>
    by_cases h : r.id = image_id
    · simp [get_image_by_id, replaceFirst, List.find?, h, hf]
    · have hb : (r.id == image_id) = false := by simpa using h
      simpa [get_image_by_id, replaceFirst, List.find?, hb] using ih

theorem update_image_poetry_found (db : List ImageRecord) (image_id : Nat)
    (t c : String) (now : Nat) (r : ImageRecord)
    (h : get_image_by_id db image_id = some r) :
    update_image_poetry db image_id t c now =
      (replaceFirst db image_id (fun x =>
        { x with poetry_title := some t, poetry_content := some c,
                 poetry_generated := true, updated_at := now }),
       some { r with poetry_title := some t, poetry_content := some c,
                     poetry_generated := true, updated_at := now }) := by
  unfold update_image_poetry
  rw [h]
  have hg := get_replaceFirst db image_id (fun x =>
      { x with poetry_title := some t, poetry_content := some c,
               poetry_generated := true, updated_at := now }) (fun x => rfl)
  simp [hg, h]

/-! ## Claim C4: `generation_complete == true` vs. non-empty title/body -/

theorem finalize_title_ne (raw language : String) (p : String × String) :
    (finalize raw language p).1 ≠ "" := by
  simp only [finalize]
  split
  · exact fallback_titles_ne language
  · next h => simpa using h

theorem finalize_content_ne (raw language : String) (p : String × String)
    (hraw : raw ≠ "") : (finalize raw language p).2 ≠ "" := by
  simp only [finalize]
  split
  · exact hraw
  · next h => simpa using h

theorem parse_title_ne (response language : String) :
    (parse_poetry_response response language).1 ≠ "" := by
  simp only [parse_poetry_response]
  exact finalize_title_ne _ _ _

theorem parse_content_ne (response language : String)
    (hresp : pyStrip response ≠ "") :
    (parse_poetry_response response language).2 ≠ "" := by
  simp only [parse_poetry_response]
  exact finalize_content_ne _ _ _ hresp

/-- Claim C4 (amended): persisting the parser's output always yields
`poetry_generated = true` with a non-empty title, and the body is also
non-empty *provided the raw AI response is non-empty after trimming*.
(For a whitespace-only raw response the flag is still set but the stored
body is empty, so the unconditional invariant claimed fails; see the
counterexample.)  Both the background retry path and the on-demand
endpoint persist through this same `update_image_poetry`. -/
theorem generation_complete_nonempty (db : List ImageRecord) (image_id : Nat)
    (response language : String) (now : Nat) (r : ImageRecord)
    (hresp : pyStrip response ≠ "")
    (hget : get_image_by_id db image_id = some r) :
    ∃ r', (update_image_poetry db image_id
            (parse_poetry_response response language).1
            (parse_poetry_response response language).2 now).2 = some r' ∧
      r'.poetry_generated = true ∧
      r'.poetry_title = some (parse_poetry_response response language).1 ∧
      r'.poetry_content = some (parse_poetry_response response language).2 ∧
      (parse_poetry_response response language).1 ≠ "" ∧
      (parse_poetry_response response language).2 ≠ "" := by
  refine ⟨{ r with
      poetry_title := some (parse_poetry_response response language).1,
      poetry_content := some (parse_poetry_response response language).2,
      poetry_generated := true, updated_at := now }, ?_, rfl, rfl, rfl,
    parse_title_ne response language, parse_content_ne response language hresp⟩
  rw [update_image_poetry_found db image_id _ _ now r hget]

/-- A concrete stored record used to instantiate the record-store
theorems. -/
def sampleRecord : ImageRecord :=
  { id := 1, filename := "f.jpg", original_filename := "f.jpg",
    file_path := "uploads/f.jpg", file_size := 5, mime_type := "image/jpeg",
    width := some 10, height := some 10, poetry_title := none,
    poetry_content := none, poetry_generated := false, upload_ip := none,
    user_agent := none, created_at := 0, updated_at := 0 }

theorem generation_complete_nonempty_witness :
    ∃ r', (update_image_poetry [sampleRecord] 1
            (parse_poetry_response "A poem" "english").1
            (parse_poetry_response "A poem" "english").2 3).2 = some r' ∧
      r'.poetry_generated = true ∧
      r'.poetry_title = some (parse_poetry_response "A poem" "english").1 ∧
      r'.poetry_content = some (parse_poetry_response "A poem" "english").2 ∧
      (parse_poetry_response "A poem" "english").1 ≠ "" ∧
      (parse_poetry_response "A poem" "english").2 ≠ "" :=
  generation_complete_nonempty [sampleRecord] 1 "A poem" "english" 3
    sampleRecord (by decide) rfl

/-- Claim C4 counterexample: for the empty raw response the parser
returns an empty body, yet the update still sets
`poetry_generated = true`, so a completed record with an empty body is
reachable, contradicting the claimed invariant. -/
theorem generation_complete_empty_body_counterexample :
    (parse_poetry_response "" "korean").2 = "" ∧
    ((update_image_poetry [sampleRecord] 1
        (parse_poetry_response "" "korean").1
        (parse_poetry_response "" "korean").2 3).2).map
      (fun r => (r.poetry_generated, r.poetry_content)) =
        some (true, some "") := by
  refine ⟨by decide, by decide⟩

/-! ## `PoetryService._create_poetry_prompt`
(src/backend/app/services/poetry_service.py, lines 93-225) -/

def prompt_korean_classic : String :=
  "\n이 이미지를 보고 아름다운 한국 고전시를 창작해주세요.\n다음 형식으로 응답해주세요:\n\n제목: [시의 제목]\n\n[시의 내용]\n\n요구사항:\n- 한국의 전통적인 서정시 스타일\n- 4-8행 정도의 적절한 길이\n- 이미지의 감정과 분위기를 잘 표현\n- 아름답고 서정적인 언어 사용\n"

def prompt_korean_modern : String :=
  "\n이 이미지를 보고 현대적인 한국어 자유시를 창작해주세요.\n다음 형식으로 응답해주세요:\n\n제목: [시의 제목]\n\n[시의 내용]\n\n요구사항:\n- 현대적이고 자유로운 형식\n- 이미지의 현대적 감각을 표현\n- 일상적이면서도 깊이 있는 언어\n- 6-10행 정도의 길이\n"

def prompt_korean_haiku : String :=
  "\n이 이미지를 보고 하이쿠(5-7-5 음성률) 형식의 한국어 시를 창작해주세요.\n다음 형식으로 응답해주세요:\n\n제목: [시의 제목]\n\n[첫 번째 줄 - 5음성]\n[두 번째 줄 - 7음성]  \n[세 번째 줄 - 5음성]\n\n요구사항:\n- 정확한 5-7-5 음성률 준수\n- 자연과 계절감을 중시\n- 간결하고 함축적인 표현\n"

def prompt_korean_free_verse : String :=
  "\n이 이미지를 보고 자유로운 형식의 한국어 시를 창작해주세요.\n다음 형식으로 응답해주세요:\n\n제목: [시의 제목]\n\n[시의 내용]\n\n요구사항:\n- 완전히 자유로운 형식과 리듬\n- 실험적이고 창의적인 표현\n- 이미지의 독특한 면을 부각\n- 길이 제한 없음\n"

def prompt_english_classic : String :=
  "\nLooking at this image, please create a beautiful classical English poem.\nPlease respond in this format:\n\nTitle: [poem title]\n\n[poem content]\n\nRequirements:\n- Traditional English poetry style\n- 4-8 lines of appropriate length\n- Express the emotion and atmosphere of the image well\n- Use beautiful and lyrical language\n"

def prompt_english_modern : String :=
  "\nLooking at this image, please create a modern English free verse poem.\nPlease respond in this format:\n\nTitle: [poem title]\n\n[poem content]\n\nRequirements:\n- Modern and free format\n- Express the contemporary sense of the image\n- Everyday yet profound language\n- About 6-10 lines\n"

def prompt_english_haiku : String :=
  "\nLooking at this image, please create a haiku (5-7-5 syllable pattern) in English.\nPlease respond in this format:\n\nTitle: [poem title]\n\n[First line - 5 syllables]\n[Second line - 7 syllables]\n[Third line - 5 syllables]\n\nRequirements:\n- Strict 5-7-5 syllable pattern\n- Focus on nature and seasons\n- Concise and implicit expression\n"

def prompt_english_free_verse : String :=
  "\nLooking at this image, please create a free verse English poem.\nPlease respond in this format:\n\nTitle: [poem title]\n\n[poem content]\n\nRequirements:\n- Completely free format and rhythm\n- Experimental and creative expression\n- Highlight unique aspects of the image\n- No length restrictions\n"

/-- The `prompts` dict of `_create_poetry_prompt`.  Note: it has entries
only for `"korean"` and `"english"`; there is no `"japanese"` entry. -/
def prompts : List (String × List (String × String)) :=
  [("korean",
    [("classic", prompt_korean_classic), ("modern", prompt_korean_modern),
     ("haiku", prompt_korean_haiku), ("free_verse", prompt_korean_free_verse)]),
   ("english",
    [("classic", prompt_english_classic), ("modern", prompt_english_modern),
     ("haiku", prompt_english_haiku), ("free_verse", prompt_english_free_verse)])]

/-- Python `dict.get(k)` over an association list. -/
def dictGet {α : Type} (d : List (String × α)) (k : String) : Option α :=
  (d.find? (fun p => p.1 == k)).map (fun p => p.2)

/-- `PoetryService._create_poetry_prompt(style, language)`, i.e. the
expression

`prompts.get(language, prompts["korean"]).get(style, prompts[language]["classic"])`.

Python evaluates the arguments of the outer `.get` eagerly, so
`prompts[language]` is subscripted *before* any fallback applies and
raises `KeyError` whenever `language` is not literally `"korean"` or
`"english"`; the `.get(language, prompts["korean"])` fallback is dead
code.  The raise is modelled as `Except.error`. -/
def create_poetry_prompt (style language : String) : Except String String :=
  let d1 := (dictGet prompts language).getD ((dictGet prompts "korean").getD [])
  match dictGet prompts language with
  | none => Except.error ("KeyError: " ++ language)
  | some dlang =>
    match dictGet dlang "classic" with
    | none => Except.error "KeyError: classic"
    | some dflt => Except.ok ((dictGet d1 style).getD dflt)

/-- Claim C3 (code bug): prompt selection is *not* total.  For the
accepted language value `"japanese"` (and any other language outside the
table) the eagerly evaluated default `prompts[language]["classic"]`
raises `KeyError`, so generation always fails for `"japanese"`; the
korean fallback written in the code is unreachable.  For the two languages
actually in the table, selection with an unrecognized style does fall back
to that language's classic prompt. -/
theorem create_poetry_prompt_japanese_keyerror :
    create_poetry_prompt "classic" "japanese" =
        Except.error "KeyError: japanese" ∧
    (∀ style, create_poetry_prompt style "japanese" =
        Except.error "KeyError: japanese") ∧
    (∀ style, create_poetry_prompt style "klingon" =
        Except.error "KeyError: klingon") ∧
    create_poetry_prompt "sonnet" "korean" = Except.ok prompt_korean_classic ∧
    create_poetry_prompt "sonnet" "english" = Except.ok prompt_english_classic := by
  exact ⟨rfl, fun style => rfl, fun style => rfl, rfl, rfl⟩

/-! ## Claim C6: request-validation boundary for style and language
(src/backend/app/schemas/image.py, lines 64-84, and the upload endpoint
signature src/backend/app/api/v1/images.py, lines 27-36) -/

def allowed_styles : List String := ["classic", "modern", "haiku", "free_verse"]

def allowed_languages : List String := ["korean", "english", "japanese"]

/-- `PoetryGenerationRequest.validate_style`. -/
def validate_style (v : String) : Except String String :=
  if allowed_styles.contains v then Except.ok v
  else Except.error "Style must be one of allowed_styles"

/-- `PoetryGenerationRequest.validate_language`. -/
def validate_language (v : String) : Except String String :=
  if allowed_languages.contains v then Except.ok v
  else Except.error "Language must be one of allowed_languages"

structure PoetryGenerationRequest where
  image_id : Nat
  style : String
  language : String
deriving DecidableEq

/-- Constructing a `PoetryGenerationRequest` from a JSON body: an omitted
field (`none`) takes its default without validation (pydantic does not
validate defaults), a provided field goes through the field validator and
rejects the whole request on failure. -/
def mkPoetryGenerationRequest (image_id : Nat) (style language : Option String) :
    Except String PoetryGenerationRequest :=
  match (match style with
         | none => Except.ok "classic"
         | some v => validate_style v) with
  | Except.error e => Except.error e
  | Except.ok s =>
    match (match language with
           | none => Except.ok "korean"
           | some v => validate_language v) with
    | Except.error e => Except.error e
    | Except.ok l => Except.ok ⟨image_id, s, l⟩

/-- The upload endpoint declares `style: str = "classic"` and
`language: str = "korean"` as plain, unconstrained query parameters
(images.py lines 33-34), so the framework's validation boundary accepts
every string pair unchanged. -/
def upload_query_params (style language : String) : Except String (String × String) :=
  Except.ok (style, language)

/-- Claim C6 (amended): only the on-demand generation endpoint's JSON
body is validated against the accepted style/language sets — a provided
value outside the set is rejected, a value inside it is accepted; the
upload endpoint's style/language query parameters pass the validation
boundary unchecked, for every string value. -/
theorem style_language_validation_boundary (image_id : Nat) (s l : String) :
    ((∃ r, mkPoetryGenerationRequest image_id (some s) (some l) = Except.ok r) ↔
      (s ∈ allowed_styles ∧ l ∈ allowed_languages)) ∧
    (∀ s' l', upload_query_params s' l' = Except.ok (s', l')) := by
  constructor
  · constructor
    · rintro ⟨r, hr⟩
      by_cases hs : s ∈ allowed_styles
      · by_cases hl : l ∈ allowed_languages
        · exact ⟨hs, hl⟩
        · simp [mkPoetryGenerationRequest, validate_style, validate_language,
            hs, hl] at hr
      · simp [mkPoetryGenerationRequest, validate_style, hs] at hr
    · rintro ⟨hs, hl⟩
      exact ⟨⟨image_id, s, l⟩, by
        simp [mkPoetryGenerationRequest, validate_style, validate_language, hs, hl]⟩
  · intro s' l'
    rfl

theorem style_language_validation_boundary_witness :
    (∃ r, mkPoetryGenerationRequest 7 (some "haiku") (some "japanese") =
      Except.ok r) ∧
    (∀ r, mkPoetryGenerationRequest 7 (some "banana") (some "korean") ≠
      Except.ok r) :=
  ⟨(style_language_validation_boundary 7 "haiku" "japanese").1.mpr
      ⟨by decide, by decide⟩,
   fun r hr =>
     by
      have h := (style_language_validation_boundary 7 "banana" "korean").1.mp ⟨r, hr⟩
      exact absurd h.1 (by decide)⟩

/-- Claim C6 counterexample: a style value outside the accepted set is
*not* rejected at the upload endpoint's validation boundary — the plain
string query parameter passes through. -/
theorem upload_style_not_validated_counterexample :
    upload_query_params "banana" "korean" = Except.ok ("banana", "korean") ∧
    allowed_styles.contains "banana" = false := by
  refine ⟨rfl, by decide⟩

/-! ## `ImageService` upload pipeline
(src/backend/app/services/image_service.py) -/

/-- `starlette.datastructures.UploadFile` as seen by the service: the
declared filename, declared content type and declared size may each be
absent. -/
structure UploadFile where
  filename : Option String
  content_type : Option String
  size : Option Nat
deriving DecidableEq

/-- An error escaping `save_uploaded_file`: either an `HTTPException`
(status code plus detail; the long formatted Python detail strings are
abbreviated since the endpoints only re-raise them unchanged), or the
`TypeError` raised by `Path(None)` when no filename was declared. -/
inductive UploadErr where
  | http (status : Nat) (detail : String)
  | typeErr
deriving DecidableEq

def ALLOWED_EXTENSIONS : List String := [".jpg", ".jpeg", ".png", ".webp", ".gif"]

def ALLOWED_MIME_TYPES : List String :=
  ["image/jpeg", "image/jpg", "image/png", "image/webp", "image/gif"]

def MAX_FILE_SIZE : Nat := 10 * 1024 * 1024

/-- Index of the last occurrence of a character, as `str.rfind`. -/
def rfindIdx (c : Char) : List Char → Option Nat
  | [] => none
  | a :: rest =>
    match rfindIdx c rest with
    | some i => some (i + 1)
    | none => if a = c then some 0 else none

/-- `pathlib.PurePath.name`: the last non-empty `/`-separated component
(trailing and repeated slashes are dropped by pathlib's normalization). -/
def pathName (s : String) : String :=
  ⟨((splitChar '/' s.data).filter (fun c => !c.isEmpty)).getLastD []⟩

/-- `pathlib.PurePath.suffix` and hence
`ImageService._get_file_extension`: the extension of the final component
including the dot; empty when the last dot is the first character or the
final character. -/
def get_file_extension (filename : String) : String :=
  let name := (pathName filename).data
  match rfindIdx '.' name with
  | some i => if 0 < i ∧ i < name.length - 1 then ⟨name.drop i⟩ else ""
  | none => ""

/-- `ImageService._validate_file` (image_service.py lines 134-167): size
check first (only when a size is declared and non-zero, per Python
truthiness of `file.size`), then the extension check (only when a
non-empty filename is declared), then the MIME check (only when a
non-empty content type is declared). -/
def validate_file (f : UploadFile) : Except UploadErr Unit :=
  if (match f.size with
      | some n => !(n == 0) && decide (MAX_FILE_SIZE < n)
      | none => false) then
    Except.error (UploadErr.http 413 "File too large")
  else if (match f.filename with
      | some name => !(name == "") &&
          !(ALLOWED_EXTENSIONS.contains (pyLower (get_file_extension name)))
      | none => false) then
    Except.error (UploadErr.http 400 "File extension not allowed")
  else if (match f.content_type with
      | some ct => !(ct == "") && !(ALLOWED_MIME_TYPES.contains ct)
      | none => false) then
    Except.error (UploadErr.http 400 "MIME type not allowed")
  else Except.ok ()

/-- The world state `save_uploaded_file` acts on: local files on disk,
object-store blobs, database records, plus an id counter and a clock for
timestamps. -/
structure Storage where
  files : List String
  s3objs : List String
  records : List ImageRecord
  nextId : Nat
  clock : Nat
deriving DecidableEq

/-- The distinct failure points inside `save_uploaded_file`'s `try`
block. -/
inductive SaveFail where
  | s3Upload | diskWrite | imageCreate | dbCommit
deriving DecidableEq

def failMsg : SaveFail → String
  | SaveFail.s3Upload => "S3 upload failed"
  | SaveFail.diskWrite => "Failed to save file to disk"
  | SaveFail.imageCreate => "ImageCreate validation error"
  | SaveFail.dbCommit => "database commit failed"

/-- The environment of one `save_uploaded_file` call: configuration
(`USE_S3_STORAGE`, S3 reachability), oracles for which external effects
succeed, the PIL dimension read result (`None` on failure, per
`_get_image_dimensions`), and the generated uuid filename stem. -/
structure Env where
  use_s3 : Bool
  s3_available : Bool
  s3_upload_ok : Bool
  disk_write_ok : Bool
  dimensions : Option (Nat × Nat)
  db_commit_ok : Bool
  unlink_ok : Bool
  s3_delete_ok : Bool
  uuid_name : String
deriving DecidableEq

/-- The `except Exception` cleanup block of `save_uploaded_file`
(image_service.py lines 114-127): unlink the local file if it exists
(failure swallowed), then delete the S3 blob if an S3 key was assigned
and the service is available (failure swallowed). -/
def cleanup_after_failure (env : Env) (file_path : String)
    (s3_key : Option String) (st : Storage) : Storage :=
  let st1 :=
    if st.files.contains file_path && env.unlink_ok
    then { st with files := st.files.filter (fun p => !(p == file_path)) }
    else st
  match s3_key with
  | some key =>
    if env.s3_available && env.s3_delete_ok
    then { st1 with s3objs := st1.s3objs.filter (fun k => !(k == key)) }
    else st1
  | none => st1

/-- The pydantic validation of `ImageCreate`: `file_size` must be > 0
(with `file.size or 0` as the value), and width/height must be ≥ 1 when
present. -/
def imageCreate_ok (f : UploadFile) (dims : Option (Nat × Nat)) : Bool :=
  decide (0 < f.size.getD 0) &&
    (match dims with
     | none => true
     | some (w, h) => decide (1 ≤ w) && decide (1 ≤ h))

/-- The record inserted by a successful commit, with the `or`-defaults of
image_service.py lines 88-98. -/
def new_record (env : Env) (f : UploadFile) (unique storage_path : String)
    (uip ua : Option String) (st : Storage) : ImageRecord :=
  { id := st.nextId,
    filename := unique,
    original_filename :=
      match f.filename with
      | some n => if n == "" then "unknown" else n
      | none => "unknown",
    file_path := storage_path,
    file_size := f.size.getD 0,
    mime_type :=
      match f.content_type with
      | some c => if c == "" then "application/octet-stream" else c
      | none => "application/octet-stream",
    width := env.dimensions.map (fun d => d.1),
    height := env.dimensions.map (fun d => d.2),
    poetry_title := none, poetry_content := none, poetry_generated := false,
    upload_ip := uip, user_agent := ua,
    created_at := st.clock, updated_at := st.clock }

def save_fail (env : Env) (file_path : String) (s3_key : Option String)
    (sf : SaveFail) (st : Storage) : Except UploadErr ImageRecord × Storage :=
  (Except.error (UploadErr.http 500 ("Failed to save image: " ++ failMsg sf)),
   cleanup_after_failure env file_path s3_key st)

/-- The tail of the `try` block after the storage write: dimension read
(non-fatal), `ImageCreate` validation, DB add/commit/refresh (modelled as
one atomic record-creation step), and — on success, in S3 mode — the
swallowed unlink of the transient local copy. -/
def commit_record (env : Env) (f : UploadFile) (unique storage_path file_path : String)
    (s3_key : Option String) (uip ua : Option String) (st : Storage) :
    Except UploadErr ImageRecord × Storage :=
  if imageCreate_ok f env.dimensions then
    if env.db_commit_ok then
      let r := new_record env f unique storage_path uip ua st
      let st1 := { st with
        records := st.records ++ [r],
        nextId := st.nextId + 1,
        clock := st.clock + 1 }
      let st2 :=
        if env.use_s3 && st1.files.contains file_path && env.unlink_ok
        then { st1 with files := st1.files.filter (fun p => !(p == file_path)) }
        else st1
      (Except.ok r, st2)
    else save_fail env file_path s3_key SaveFail.dbCommit st
  else save_fail env file_path s3_key SaveFail.imageCreate st

/-- The S3 URL returned by `S3Service.upload_file` (bucket and region
come from settings and are irrelevant to the claims). -/
def s3_url_of (key : String) : String :=
  "https://bucket.s3.region.amazonaws.com/" ++ key

/-- `ImageService.save_uploaded_file` (image_service.py lines 38-132):
validate (raises propagate with no side effect), derive the unique
filename (raising `TypeError` when no filename was declared, since
`Path(None)` is subscripted before the `try` block), then inside the
`try` block write to S3 and/or disk, read dimensions, build the record
and commit; any failure inside the `try` block triggers the cleanup and
is rewrapped as a 500 `HTTPException`. -/
def save_uploaded_file (env : Env) (f : UploadFile) (uip ua : Option String)
    (st : Storage) : Except UploadErr ImageRecord × Storage :=
  match validate_file f with
  | Except.error e => (Except.error e, st)
  | Except.ok _ =>
    match f.filename with
    | none => (Except.error UploadErr.typeErr, st)
    | some name =>
      let ext := get_file_extension name
      let unique := env.uuid_name ++ ext
      let file_path := "uploads/" ++ unique
      if env.use_s3 && env.s3_available then
        if env.s3_upload_ok then
          let key := "images/" ++ unique
          let st1 := { st with s3objs := st.s3objs ++ [key] }
          if env.disk_write_ok then
            let st2 := { st1 with files := st1.files ++ [file_path] }
            commit_record env f unique (s3_url_of key) file_path (some key) uip ua st2
          else save_fail env file_path (some key) SaveFail.diskWrite st1
        else save_fail env file_path none SaveFail.s3Upload st
      else
        if env.disk_write_ok then
          let st2 := { st with files := st.files ++ [file_path] }
          commit_record env f unique file_path file_path none uip ua st2
        else save_fail env file_path none SaveFail.diskWrite st

/-! ## Claim C5: upload validation rejections happen before any I/O -/

/-- Claim C5 (amended): the size check runs first, so an upload both
oversized and ill-typed is rejected with 413, not 400; among uploads
passing the size check a bad extension gives the 400 extension rejection,
and among those also passing the extension check a bad declared MIME type
gives the 400 MIME rejection; and every validation error leaves
`save_uploaded_file` with the same error and the world state untouched
(no record created, no blob written). -/
theorem upload_validation_rejections (env : Env) (f : UploadFile)
    (uip ua : Option String) (st : Storage) :
    (∀ n, f.size = some n → MAX_FILE_SIZE < n →
      validate_file f = Except.error (UploadErr.http 413 "File too large")) ∧
    ((∀ n, f.size = some n → n = 0 ∨ n ≤ MAX_FILE_SIZE) →
     ∀ name, f.filename = some name → name ≠ "" →
      pyLower (get_file_extension name) ∉ ALLOWED_EXTENSIONS →
      validate_file f =
        Except.error (UploadErr.http 400 "File extension not allowed")) ∧
    ((∀ n, f.size = some n → n = 0 ∨ n ≤ MAX_FILE_SIZE) →
     (∀ name, f.filename = some name → name = "" ∨
        pyLower (get_file_extension name) ∈ ALLOWED_EXTENSIONS) →
     ∀ ct, f.content_type = some ct → ct ≠ "" →
      ct ∉ ALLOWED_MIME_TYPES →
      validate_file f =
        Except.error (UploadErr.http 400 "MIME type not allowed")) ∧
    (∀ e, validate_file f = Except.error e →
      save_uploaded_file env f uip ua st = (Except.error e, st)) := by
  have hsizeF : (∀ n, f.size = some n → n = 0 ∨ n ≤ MAX_FILE_SIZE) →
      (match f.size with
       | some n => !(n == 0) && decide (MAX_FILE_SIZE < n)
       | none => false) = false := by
    intro hs
    cases hn : f.size with
    | none => rfl
    | some n =>
      rcases hs n hn with h | h
      · simp [h]
      · simp [Nat.not_lt.mpr h]
  refine ⟨?_, ?_, ?_, ?_⟩
  · intro n hn hmax
    have h0 : (n == 0) = false := by
      simp only [beq_eq_false_iff_ne, ne_eq]
      omega
    simp [validate_file, hn, h0, hmax]
  · intro hs name hname hne hext
    have h1 := hsizeF hs
    simp [validate_file, h1, hname, hne, hext]
  · intro hs hext ct hct hcne hmime
    have h1 := hsizeF hs
    have h2 : (match f.filename with
       | some name => !(name == "") &&
           !(decide (pyLower (get_file_extension name) ∈ ALLOWED_EXTENSIONS))
       | none => false) = false := by
      cases hn : f.filename with
      | none => rfl
      | some name =>
        rcases hext name hn with h | h
        · simp [h]
        · simp [h]
    simp [validate_file, h1, h2, hct, hcne, hmime]
  · intro e he
    simp [save_uploaded_file, he]

def oversizeBadExt : UploadFile :=
  { filename := some "a.txt", content_type := some "text/plain",
    size := some (MAX_FILE_SIZE + 1) }

theorem upload_validation_rejections_witness :
    validate_file oversizeBadExt =
      Except.error (UploadErr.http 413 "File too large") ∧
    save_uploaded_file
        { use_s3 := false, s3_available := false, s3_upload_ok := false,
          disk_write_ok := true, dimensions := none, db_commit_ok := true,
          unlink_ok := true, s3_delete_ok := true, uuid_name := "u" }
        oversizeBadExt none none
        { files := [], s3objs := [], records := [], nextId := 1, clock := 0 } =
      (Except.error (UploadErr.http 413 "File too large"),
       { files := [], s3objs := [], records := [], nextId := 1, clock := 0 }) := by
  have h := upload_validation_rejections
    { use_s3 := false, s3_available := false, s3_upload_ok := false,
      disk_write_ok := true, dimensions := none, db_commit_ok := true,
      unlink_ok := true, s3_delete_ok := true, uuid_name := "u" }
    oversizeBadExt none none
    { files := [], s3objs := [], records := [], nextId := 1, clock := 0 }
  have h413 := h.1 (MAX_FILE_SIZE + 1) rfl (Nat.lt_succ_self _)
  exact ⟨h413, h.2.2.2 _ h413⟩

/-- Claim C5 counterexample: an upload whose extension is disallowed
*and* whose declared size exceeds the maximum receives the 413 size
rejection, not the 400 type rejection the claim promises for every upload
with a disallowed extension. -/
theorem type_rejection_counterexample :
    ALLOWED_EXTENSIONS.contains (pyLower (get_file_extension "a.txt")) = false ∧
    validate_file oversizeBadExt =
      Except.error (UploadErr.http 413 "File too large") ∧
    UploadErr.http 413 "File too large" ≠
      UploadErr.http 400 "File extension not allowed" := by
  refine ⟨by decide, rfl, by decide⟩

/-! ## Claim C7: failures after validation trigger cleanup and a 500 -/

theorem filter_ne_of_not_mem (l : List String) (x : String) (h : x ∉ l) :
    l.filter (fun p => !(p == x)) = l := by
  apply List.filter_eq_self.mpr
  intro a ha
  simp only [Bool.not_eq_true']
  rw [beq_eq_false_iff_ne]
  intro hax
  exact h (hax ▸ ha)

theorem filter_append_singleton_fresh (l : List String) (x : String)
    (h : x ∉ l) : (l ++ [x]).filter (fun p => !(p == x)) = l := by
  rw [List.filter_append, filter_ne_of_not_mem l x h]
  simp

theorem cleanup_after_failure_records (env : Env) (fp : String)
    (k : Option String) (st : Storage) :
    (cleanup_after_failure env fp k st).records = st.records := by
  unfold cleanup_after_failure
  cases k <;> dsimp only <;> (repeat' split) <;> rfl

theorem cleanup_nothing_fresh (env : Env) (fp : String) (st : Storage)
    (hfree : fp ∉ st.files) : cleanup_after_failure env fp none st = st := by
  unfold cleanup_after_failure
  simp [hfree]

theorem cleanup_local_fresh (env : Env) (fp : String) (st : Storage)
    (hfree : fp ∉ st.files) (hunlink : env.unlink_ok = true) :
    (cleanup_after_failure env fp none
        { st with files := st.files ++ [fp] }).files = st.files ∧
    (cleanup_after_failure env fp none
        { st with files := st.files ++ [fp] }).s3objs = st.s3objs := by
  unfold cleanup_after_failure
  have hc : ((st.files ++ [fp]).contains fp) = true := by simp
  simp [hc, hunlink, filter_append_singleton_fresh st.files fp hfree]

theorem cleanup_s3_only_fresh (env : Env) (fp k0 : String) (st : Storage)
    (hfree : fp ∉ st.files) (hkfree : k0 ∉ st.s3objs)
    (havail : env.s3_available = true) (hdel : env.s3_delete_ok = true) :
    (cleanup_after_failure env fp (some k0)
        { st with s3objs := st.s3objs ++ [k0] }).files = st.files ∧
    (cleanup_after_failure env fp (some k0)
        { st with s3objs := st.s3objs ++ [k0] }).s3objs = st.s3objs := by
  unfold cleanup_after_failure
  simp [hfree, havail, hdel, filter_append_singleton_fresh st.s3objs k0 hkfree]

theorem cleanup_full_fresh (env : Env) (fp k0 : String) (st : Storage)
    (hfree : fp ∉ st.files) (hkfree : k0 ∉ st.s3objs)
    (hunlink : env.unlink_ok = true) (havail : env.s3_available = true)
    (hdel : env.s3_delete_ok = true) :
    (cleanup_after_failure env fp (some k0)
        { st with files := st.files ++ [fp],
                  s3objs := st.s3objs ++ [k0] }).files = st.files ∧
    (cleanup_after_failure env fp (some k0)
        { st with files := st.files ++ [fp],
                  s3objs := st.s3objs ++ [k0] }).s3objs = st.s3objs := by
  unfold cleanup_after_failure
  have hc : ((st.files ++ [fp]).contains fp) = true := by simp
  simp [hc, hunlink, havail, hdel,
    filter_append_singleton_fresh st.files fp hfree,
    filter_append_singleton_fresh st.s3objs k0 hkfree]

/-- Claim C7: with validation passed (and a filename present, so the
pipeline reaches the `try` block), every failing run of
`save_uploaded_file` surfaces a 500 `HTTPException`, leaves the record
store exactly as it was, and — when the unlink and S3-delete succeed and
the generated names are fresh — leaves neither the local file nor the
object-store blob behind; a failing cleanup step is swallowed and the 500
still surfaces. -/
theorem upload_failure_cleanup (env : Env) (f : UploadFile)
    (uip ua : Option String) (st : Storage) (name : String)
    (hval : validate_file f = Except.ok ())
    (hfn : f.filename = some name)
    (e : UploadErr) (st2 : Storage)
    (hsave : save_uploaded_file env f uip ua st = (Except.error e, st2)) :
    (∃ m, e = UploadErr.http 500 m) ∧
    st2.records = st.records ∧
    (("uploads/" ++ (env.uuid_name ++ get_file_extension name)) ∉ st.files →
     ("images/" ++ (env.uuid_name ++ get_file_extension name)) ∉ st.s3objs →
     env.unlink_ok = true → env.s3_delete_ok = true →
     st2.files = st.files ∧ st2.s3objs = st.s3objs) := by
  simp only [save_uploaded_file, hval, hfn, commit_record, save_fail] at hsave
  split at hsave
  case isTrue hs3 =>
    have havail : env.s3_available = true := by
      rw [Bool.and_eq_true] at hs3
      exact hs3.2
    split at hsave
    case isTrue hup =>
      split at hsave
      case isTrue hdw =>
        split at hsave
        case isTrue hic =>
          split at hsave
          case isTrue hcommit => simp at hsave
          case isFalse hcommit =>
            simp only [Prod.mk.injEq, Except.error.injEq] at hsave
            obtain ⟨he, hst⟩ := hsave
            subst he
            subst hst
            refine ⟨⟨_, rfl⟩, by rw [cleanup_after_failure_records], ?_⟩
            intro hfree hkfree hunlink hdel
            exact cleanup_full_fresh env _ _ st hfree hkfree hunlink havail hdel
        case isFalse hic =>
          simp only [Prod.mk.injEq, Except.error.injEq] at hsave
          obtain ⟨he, hst⟩ := hsave
          subst he
          subst hst
          refine ⟨⟨_, rfl⟩, by rw [cleanup_after_failure_records], ?_⟩
          intro hfree hkfree hunlink hdel
          exact cleanup_full_fresh env _ _ st hfree hkfree hunlink havail hdel
      case isFalse hdw =>
        simp only [Prod.mk.injEq, Except.error.injEq] at hsave
        obtain ⟨he, hst⟩ := hsave
        subst he
        subst hst
        refine ⟨⟨_, rfl⟩, by rw [cleanup_after_failure_records], ?_⟩
        intro hfree hkfree hunlink hdel
        exact cleanup_s3_only_fresh env _ _ st hfree hkfree havail hdel
    case isFalse hup =>
      simp only [Prod.mk.injEq, Except.error.injEq] at hsave
      obtain ⟨he, hst⟩ := hsave
      subst he
      subst hst
      refine ⟨⟨_, rfl⟩, by rw [cleanup_after_failure_records], ?_⟩
      intro hfree hkfree hunlink hdel
      rw [cleanup_nothing_fresh env _ st hfree]
      exact ⟨rfl, rfl⟩
  case isFalse hs3 =>
    split at hsave
    case isTrue hdw =>
      split at hsave
      case isTrue hic =>
        split at hsave
        case isTrue hcommit => simp at hsave
        case isFalse hcommit =>
          simp only [Prod.mk.injEq, Except.error.injEq] at hsave
          obtain ⟨he, hst⟩ := hsave
          subst he
          subst hst
          refine ⟨⟨_, rfl⟩, by rw [cleanup_after_failure_records], ?_⟩
          intro hfree hkfree hunlink hdel
          exact cleanup_local_fresh env _ st hfree hunlink
      case isFalse hic =>
        simp only [Prod.mk.injEq, Except.error.injEq] at hsave
        obtain ⟨he, hst⟩ := hsave
        subst he
        subst hst
        refine ⟨⟨_, rfl⟩, by rw [cleanup_after_failure_records], ?_⟩
        intro hfree hkfree hunlink hdel
        exact cleanup_local_fresh env _ st hfree hunlink
    case isFalse hdw =>
      simp only [Prod.mk.injEq, Except.error.injEq] at hsave
      obtain ⟨he, hst⟩ := hsave
      subst he
      subst hst
      refine ⟨⟨_, rfl⟩, by rw [cleanup_after_failure_records], ?_⟩
      intro hfree hkfree hunlink hdel
      rw [cleanup_nothing_fresh env _ st hfree]
      exact ⟨rfl, rfl⟩

def commitFailEnv : Env :=
  { use_s3 := false, s3_available := false, s3_upload_ok := false,
    disk_write_ok := true, dimensions := some (10, 10), db_commit_ok := false,
    unlink_ok := true, s3_delete_ok := true, uuid_name := "u7" }

def validJpeg : UploadFile :=
  { filename := some "x.jpg", content_type := some "image/jpeg", size := some 9 }

def emptyStorage : Storage :=
  { files := [], s3objs := [], records := [], nextId := 1, clock := 0 }

theorem upload_failure_cleanup_witness :
    (∃ m, UploadErr.http 500 "Failed to save image: database commit failed" =
        UploadErr.http 500 m) ∧
    emptyStorage.records = emptyStorage.records ∧
    (("uploads/" ++ (commitFailEnv.uuid_name ++ get_file_extension "x.jpg"))
        ∉ emptyStorage.files →
     ("images/" ++ (commitFailEnv.uuid_name ++ get_file_extension "x.jpg"))
        ∉ emptyStorage.s3objs →
     commitFailEnv.unlink_ok = true → commitFailEnv.s3_delete_ok = true →
     emptyStorage.files = emptyStorage.files ∧
     emptyStorage.s3objs = emptyStorage.s3objs) :=
  upload_failure_cleanup commitFailEnv validJpeg none none emptyStorage
    "x.jpg" rfl rfl
    (UploadErr.http 500 "Failed to save image: database commit failed")
    emptyStorage rfl

/-! ## Claim C10: missing/zero declared size bypasses the 413 check -/

theorem imageCreate_ok_false_of_no_size (f : UploadFile)
    (dims : Option (Nat × Nat)) (hsz : f.size = none ∨ f.size = some 0) :
    imageCreate_ok f dims = false := by
  rcases hsz with h | h <;> simp [imageCreate_ok, h]

/-- Claim C10: an upload with no declared size (or declared size 0) can
never receive the 413 size rejection (Python truthiness of `file.size`
short-circuits the check), and can never produce a record: the pydantic
`file_size > 0` constraint fails on the `file.size or 0` default, so once
validation passes (a filename being present), the call ends in a 500
storage error after the best-effort cleanup, with the record store
unchanged. -/
theorem size_check_bypass (env : Env) (f : UploadFile) (uip ua : Option String)
    (st : Storage) (hsz : f.size = none ∨ f.size = some 0) :
    (∀ m, validate_file f ≠ Except.error (UploadErr.http 413 m)) ∧
    (∀ r st2, save_uploaded_file env f uip ua st ≠ (Except.ok r, st2)) ∧
    (save_uploaded_file env f uip ua st).2.records = st.records ∧
    (∀ name, f.filename = some name → validate_file f = Except.ok () →
      ∃ m, (save_uploaded_file env f uip ua st).1 =
        Except.error (UploadErr.http 500 m)) := by
  have hic := imageCreate_ok_false_of_no_size f env.dimensions hsz
  have hsfalse : (match f.size with
      | some n => !(n == 0) && decide (MAX_FILE_SIZE < n)
      | none => false) = false := by
    rcases hsz with h | h <;> simp [h]
  refine ⟨?_, ?_, ?_, ?_⟩
  · intro m hcon
    unfold validate_file at hcon
    rw [hsfalse] at hcon
    simp only [Bool.false_eq_true, if_false] at hcon
    repeat' split at hcon
    all_goals simp_all
  · intro r st2 hcon
    simp only [save_uploaded_file, commit_record, save_fail, hic] at hcon
    repeat' split at hcon
    all_goals simp_all
  · simp only [save_uploaded_file, commit_record, save_fail, hic]
    repeat' split
    all_goals simp_all [cleanup_after_failure_records]
  · intro name hfn hval
    simp only [save_uploaded_file, hval, hfn, commit_record, save_fail, hic]
    repeat' split
    all_goals first | exact ⟨_, rfl⟩ | simp_all

def noSizeUpload : UploadFile :=
  { filename := some "y.png", content_type := some "image/png", size := none }

theorem size_check_bypass_witness :
    (∀ m, validate_file noSizeUpload ≠
        Except.error (UploadErr.http 413 m)) ∧
    (save_uploaded_file commitFailEnv noSizeUpload none none
        emptyStorage).2.records = emptyStorage.records ∧
    (∃ m, (save_uploaded_file commitFailEnv noSizeUpload none none
        emptyStorage).1 = Except.error (UploadErr.http 500 m)) :=
  have h := size_check_bypass commitFailEnv noSizeUpload none none
    emptyStorage (Or.inl rfl)
  ⟨h.1, h.2.2.1, h.2.2.2 "y.png" rfl rfl⟩

/-! ## Claim C2: background generation with retry
(src/backend/app/api/v1/images.py, lines 102-163) -/

/-- One observable event of the background task: an `asyncio.sleep` of a
given number of time units, or a Generation Client attempt (0-based). -/
inductive BgEvent where
  | sleep (units : Nat)
  | attempt (k : Nat)
deriving DecidableEq

/-- The `for attempt in range(max_retries)` loop of
`generate_poetry_background`: call the client; on success stop; on
failure sleep `retry_delay` and continue, unless this was the final
attempt, in which case re-raise.  `client k` is the outcome of the k-th
`generate_poetry_from_image` call (`none` models a raised exception; the
image path, style and language the call closes over are fixed for the
whole task, so the oracle depends only on the attempt index). -/
def attemptLoop (client : Nat → Option (String × String)) (retry_delay : Nat)
    (attempt max_retries : Nat) : Option (String × String) × List BgEvent :=
  if attempt < max_retries then
    match client attempt with
    | some tc => (some tc, [BgEvent.attempt attempt])
    | none =>
      if attempt < max_retries - 1 then
        let r := attemptLoop client retry_delay (attempt + 1) max_retries
        (r.1, BgEvent.attempt attempt :: BgEvent.sleep retry_delay :: r.2)
      else (none, [BgEvent.attempt attempt])
  else (none, [])
termination_by max_retries - attempt
decreasing_by omega

/-- `generate_poetry_background(image_id, style, language)`: look the
record up (missing record → return, no work); sleep 2 units for S3
propagation; run the retry loop with `max_retries = 3`,
`retry_delay = 5`; on success persist through `update_image_poetry`; on
exhaustion the outer `except` only prints, leaving the database
unchanged and surfacing nothing to any endpoint.  Returns the final
database together with the event trace. -/
def generate_poetry_background (db : List ImageRecord) (image_id : Nat)
    (client : Nat → Option (String × String)) (now : Nat) :
    List ImageRecord × List BgEvent :=
  match get_image_by_id db image_id with
  | none => (db, [])
  | some _ =>
    let r := attemptLoop client 5 0 3
    match r.1 with
    | some tc =>
      ((update_image_poetry db image_id tc.1 tc.2 now).1,
       BgEvent.sleep 2 :: r.2)
    | none => (db, BgEvent.sleep 2 :: r.2)

def countAttempts (evs : List BgEvent) : Nat :=
  (evs.filter (fun e => match e with
    | BgEvent.attempt _ => true
    | _ => false)).length

theorem attemptLoop_count (client : Nat → Option (String × String)) (d : Nat) :
    ∀ fuel k n, n - k ≤ fuel →
      countAttempts (attemptLoop client d k n).2 ≤ n - k := by
  intro fuel
  induction fuel with
  | zero =>
    intro k n h
    have hnk : ¬ k < n := by omega
    simp [attemptLoop, hnk, countAttempts]
  | succ m ih =>
    intro k n h
    by_cases hkn : k < n
    · rw [attemptLoop]
      simp only [hkn, if_true]
      cases hc : client k with
      | some tc => simp [countAttempts]; omega
      | none =>
        by_cases hlast : k < n - 1
        · simp only [hlast, if_true]
          have := ih (k + 1) n (by omega)
          simp [countAttempts] at this ⊢
          omega
        · simp [hlast, countAttempts]
          omega
    · simp [attemptLoop, hkn, countAttempts]

/-- Claim C2: the background task makes at most 3 client attempts; a
missing record means no work at all; the fail-fail-succeed run produces
exactly the trace sleep 2, attempt, sleep 5, attempt, sleep 5, attempt
and ends with the record completed with the third attempt's title and
body; three failures leave the database unchanged (and the function's
return carries no error value at all — nothing is surfaced). -/
theorem background_retry_behavior (db : List ImageRecord) (image_id : Nat)
    (client : Nat → Option (String × String)) (now : Nat) :
    countAttempts (generate_poetry_background db image_id client now).2 ≤ 3 ∧
    (get_image_by_id db image_id = none →
      generate_poetry_background db image_id client now = (db, [])) ∧
    (∀ r t c, get_image_by_id db image_id = some r →
      client 0 = none → client 1 = none → client 2 = some (t, c) →
      (generate_poetry_background db image_id client now).2 =
        [BgEvent.sleep 2, BgEvent.attempt 0, BgEvent.sleep 5,
         BgEvent.attempt 1, BgEvent.sleep 5, BgEvent.attempt 2] ∧
      get_image_by_id (generate_poetry_background db image_id client now).1
          image_id =
        some { r with poetry_title := some t, poetry_content := some c,
                      poetry_generated := true, updated_at := now }) ∧
    (client 0 = none → client 1 = none → client 2 = none →
      (generate_poetry_background db image_id client now).1 = db) := by
  refine ⟨?_, ?_, ?_, ?_⟩
  · cases hg : get_image_by_id db image_id with
    | none => simp [generate_poetry_background, hg, countAttempts]
    | some r =>
      have hcount := attemptLoop_count client 5 3 0 3 (by omega)
      simp only [generate_poetry_background, hg]
      cases hr : (attemptLoop client 5 0 3).1 <;>
        simpa [countAttempts] using hcount
  · intro hg
    simp [generate_poetry_background, hg]
  · intro r t c hg h0 h1 h2
    have hloop : attemptLoop client 5 0 3 =
        (some (t, c), [BgEvent.attempt 0, BgEvent.sleep 5, BgEvent.attempt 1,
          BgEvent.sleep 5, BgEvent.attempt 2]) := by
      rw [attemptLoop]
      simp only [h0]
      rw [attemptLoop]
      simp only [h1]
      rw [attemptLoop]
      simp only [h2]
      norm_num
    have hupd := update_image_poetry_found db image_id t c now r hg
    have hget := get_replaceFirst db image_id
      (fun x => { x with
        poetry_title := some t,
        poetry_content := some c,
        poetry_generated := true,
        updated_at := now })
      (fun x => rfl)
    constructor
    · simp [generate_poetry_background, hg, hloop]
    · simp only [generate_poetry_background, hg, hloop]
      rw [show (update_image_poetry db image_id t c now).1 =
          replaceFirst db image_id (fun x => { x with
            poetry_title := some t,
            poetry_content := some c,
            poetry_generated := true,
            updated_at := now })
        from congrArg Prod.fst hupd]
      rw [hget, hg]
      rfl
  · intro h0 h1 h2
    have hloop : (attemptLoop client 5 0 3).1 = none := by
      rw [attemptLoop]
      simp only [h0]
      rw [attemptLoop]
      simp only [h1]
      rw [attemptLoop]
      simp only [h2]
      norm_num
    cases hg : get_image_by_id db image_id with
    | none => simp [generate_poetry_background, hg]
    | some r => simp [generate_poetry_background, hg, hloop]

def bgRecord : ImageRecord :=
  { id := 2, filename := "g.jpg", original_filename := "g.jpg",
    file_path := "uploads/g.jpg", file_size := 7, mime_type := "image/jpeg",
    width := some 4, height := some 4, poetry_title := none,
    poetry_content := none, poetry_generated := false, upload_ip := none,
    user_agent := none, created_at := 1, updated_at := 1 }

def flakyClient : Nat → Option (String × String) :=
  fun k => if k == 2 then some ("T3", "B3") else none

theorem background_retry_behavior_witness :
    (generate_poetry_background [bgRecord] 2 flakyClient 7).2 =
      [BgEvent.sleep 2, BgEvent.attempt 0, BgEvent.sleep 5,
       BgEvent.attempt 1, BgEvent.sleep 5, BgEvent.attempt 2] ∧
    get_image_by_id (generate_poetry_background [bgRecord] 2 flakyClient 7).1
        2 =
      some { bgRecord with
        poetry_title := some "T3",
        poetry_content := some "B3",
        poetry_generated := true,
        updated_at := 7 } :=
  (background_retry_behavior [bgRecord] 2 flakyClient 7).2.2.1 bgRecord
    "T3" "B3" rfl rfl rfl rfl

/-! ## Claim C8: listing with pagination
(src/backend/app/api/v1/images.py, lines 293-314, and
src/backend/app/services/image_service.py, lines 283-306) -/

/-- The `ORDER BY created_at DESC` relation: `a` is at least as new as
`b`. -/
def newestFirst (a b : ImageRecord) : Prop := b.created_at ≤ a.created_at

instance : DecidableRel newestFirst :=
  fun a b => Nat.decLe b.created_at a.created_at

instance : IsTotal ImageRecord newestFirst :=
  ⟨fun a b => le_total b.created_at a.created_at⟩

instance : IsTrans ImageRecord newestFirst :=
  ⟨fun _ _ _ hab hbc => le_trans hbc hab⟩

/-- `ImageService.get_images_list`: the query
`order_by(created_at.desc()).offset(skip).limit(limit)`, modelled as a
newest-first sort followed by drop and take. -/
def get_images_list (db : List ImageRecord) (skip limit : Nat) :
    List ImageRecord :=
  ((List.insertionSort newestFirst db).drop skip).take limit

/-- The `list_images` endpoint: `if limit > 100: limit = 100`, then
delegate to the service. -/
def list_images (db : List ImageRecord) (skip limit : Nat) :
    List ImageRecord :=
  get_images_list db skip (if limit > 100 then 100 else limit)

/-- Claim C8: the returned page is ordered newest-first, comes from the
stored records, skips `skip` records of the sorted sequence, and its
length never exceeds the effective limit, which is silently capped at
100 — in particular a requested limit over 100 yields at most 100
records, with no error (the function is total). -/
theorem list_images_pagination (db : List ImageRecord) (skip limit : Nat) :
    List.Pairwise newestFirst (list_images db skip limit) ∧
    (list_images db skip limit).length ≤ (if limit > 100 then 100 else limit) ∧
    (limit > 100 → (list_images db skip limit).length ≤ 100) ∧
    (∀ r, r ∈ list_images db skip limit → r ∈ db) ∧
    list_images db skip limit =
      ((List.insertionSort newestFirst db).drop skip).take
        (if limit > 100 then 100 else limit) := by
  have hsub : List.Sublist (list_images db skip limit)
      (List.insertionSort newestFirst db) :=
    List.Sublist.trans (List.take_sublist _ _) (List.drop_sublist _ _)
  have hsorted : List.Pairwise newestFirst (List.insertionSort newestFirst db) :=
    List.sorted_insertionSort newestFirst db
  refine ⟨hsorted.sublist hsub, ?_, ?_, ?_, rfl⟩
  · exact List.length_take_le _ _
  · intro h
    simp only [list_images, get_images_list, if_pos h]
    exact List.length_take_le _ _
  · intro r hr
    exact (List.perm_insertionSort newestFirst db).subset (hsub.subset hr)

def olderRecord : ImageRecord :=
  { id := 3, filename := "o.jpg", original_filename := "o.jpg",
    file_path := "uploads/o.jpg", file_size := 2, mime_type := "image/jpeg",
    width := none, height := none, poetry_title := none,
    poetry_content := none, poetry_generated := false, upload_ip := none,
    user_agent := none, created_at := 5, updated_at := 5 }

def newerRecord : ImageRecord :=
  { id := 4, filename := "n.jpg", original_filename := "n.jpg",
    file_path := "uploads/n.jpg", file_size := 3, mime_type := "image/jpeg",
    width := none, height := none, poetry_title := none,
    poetry_content := none, poetry_generated := false, upload_ip := none,
    user_agent := none, created_at := 9, updated_at := 9 }

theorem list_images_pagination_witness :
    List.Pairwise newestFirst (list_images [olderRecord, newerRecord] 0 500) ∧
    (list_images [olderRecord, newerRecord] 0 500).length ≤ 100 ∧
    newerRecord ∈ [olderRecord, newerRecord] :=
  have h := list_images_pagination [olderRecord, newerRecord] 0 500
  ⟨h.1, h.2.2.1 (by decide), h.2.2.2.1 newerRecord (by decide)⟩

end ImagePoet
